import Mathlib

/-
  Verification of the NexaNeuron front-end's session/entitlement model and
  media pipeline glue, shallowly embedded from the TypeScript sources.

  Embedded code:
  * src/App.tsx                    - UserProfile, onAuthStateChanged session
                                     resolution, handleCoinsUpdate,
                                     handlePremiumUnlocked
  * src/unnamed/part_004           - ImageGenerator.handleSubmit (coin debit)
  * src/components/VideoGenerator.tsx - VideoGenerator.handleSubmit (coin debit)
  * src/components/TextToSpeech.tsx   - PremiumPage.handleChoosePlan (premium guard)
  * src/services/geminiService.ts  - GeminiService._processVideoToFrames
  * src/components/Logo.tsx        - createBlob (float -> PCM16 conversion)

  Remote I/O (Firestore getDoc/updateDoc/setDoc) is modelled by explicit
  success/failure flags and an explicit document-store value; localStorage by
  an explicit Option value.  Numbers are Int/Nat/Rat as appropriate.
-/

namespace NexaNeuron

/-- The in-memory user profile, from the UserProfile interface in
src/App.tsx (lines 26-34).  Optional TS fields (`coins?`, `isPremium?`) become
Option; nullable strings become Option String. -/
structure UserProfile where
  uid : String
  displayName : Option String
  email : Option String
  photoURL : Option String
  coins : Option Int
  isGuest : Bool
  isPremium : Option Bool
deriving Repr, DecidableEq

/-- The remote Firestore document for a user, shape
`{displayName, email, photoURL, lastLogin, coins, isPremium}` as written by
src/App.tsx lines 89-97; `lastLogin` is modelled as a timestamp. -/
structure RemoteDoc where
  displayName : Option String
  email : Option String
  photoURL : Option String
  lastLogin : Option Nat
  coins : Option Int
  isPremium : Option Bool
deriving Repr, DecidableEq

/-- IMAGE_COST = 5, from src/unnamed/part_004 line 16. -/
def IMAGE_COST : Int := 5

/-- VIDEO_COST = 20, from src/components/VideoGenerator.tsx line 31. -/
def VIDEO_COST : Int := 20

/-- `user?.isPremium ?? false` as computed in both generators. -/
def premiumOf (u : UserProfile) : Bool := u.isPremium.getD false

/-- `user.coins ?? 0` as computed in both generators. -/
def coinsOf (u : UserProfile) : Int := u.coins.getD 0

/-- `hasEnoughCoins = isPremium || (user.coins ?? 0) >= COST`, from
src/unnamed/part_004 line 29 and src/components/VideoGenerator.tsx line 59. -/
def hasEnoughCoins (u : UserProfile) (cost : Int) : Bool :=
  premiumOf u || decide (cost ≤ coinsOf u)

/-- Observable outcome of one run of a generator's handleSubmit:
whether the generation call was issued, the produced output (if any), whether
an inline error message was set, the in-memory/local coin balance afterwards
(propagated through onUpdateCoins / handleCoinsUpdate in src/App.tsx lines
148-156), and the remote document's coin balance afterwards. -/
structure SubmitOutcome (α : Type) where
  attempted : Bool
  output : Option α
  errorShown : Bool
  localCoins : Option Int
  remoteCoins : Int
deriving Repr, DecidableEq

/-- Shallow embedding of ImageGenerator.handleSubmit (src/unnamed/part_004
lines 31-68) and VideoGenerator.handleSubmit
(src/components/VideoGenerator.tsx lines 129-199), which share the same
entitlement logic with costs IMAGE_COST and VIDEO_COST respectively.
`gen` is the outcome of the awaited generation call (`generateImage` /
`Promise.all([videoPromise, audioPromise])`): on `Except.error` control jumps
to the catch block.  The remote debit `updateDoc(userRef,
{coins: increment(-COST)})` happens only on the success path for non-premium,
non-guest users; `onUpdateCoins(newBalance)` runs after it. -/
def handleSubmit {α : Type} (u : UserProfile) (cost : Int) (remoteCoins : Int)
    (gen : Except String α) : SubmitOutcome α :=
  if hasEnoughCoins u cost = false then
    { attempted := false, output := none, errorShown := true,
      localCoins := u.coins, remoteCoins := remoteCoins }
  else
    match gen with
    | .ok out =>
        if premiumOf u then
          { attempted := true, output := some out, errorShown := false,
            localCoins := u.coins, remoteCoins := remoteCoins }
        else
          { attempted := true, output := some out, errorShown := false,
            localCoins := some (coinsOf u - cost),
            remoteCoins := if u.isGuest then remoteCoins else remoteCoins - cost }
    | .error _ =>
        { attempted := true, output := none, errorShown := true,
          localCoins := u.coins, remoteCoins := remoteCoins }

/-- The authenticated identity delivered by onAuthStateChanged (the
`currentUser` argument in src/App.tsx line 70). -/
structure AuthUser where
  uid : String
  displayName : Option String
  email : Option String
  photoURL : Option String
deriving Repr, DecidableEq

/-- Failure injection for the four remote operations issued by the
authenticated branch of the onAuthStateChanged callback, in program order:
the first getDoc, the backfilling updateDoc, the re-reading getDoc, and the
profile-creating setDoc. -/
structure RemoteOps where
  getFails : Bool
  updateFails : Bool
  regetFails : Bool
  setFails : Bool
deriving Repr, DecidableEq

/-- All four remote operations succeed. -/
def RemoteOps.allOk : RemoteOps :=
  { getFails := false, updateFails := false, regetFails := false, setFails := false }

/-- State after one run of the onAuthStateChanged callback: the profile passed
to setUser (none when setUser was never reached), the remote document store,
the localStorage guestProfile entry, and whether the async callback rejected. -/
structure SessionOutcome where
  user : Option UserProfile
  store : Option RemoteDoc
  guestLocal : Option UserProfile
  failed : Bool
deriving Repr, DecidableEq

/-- The fresh guest profile synthesized in src/App.tsx lines 115-123:
uid "guest-" + Date.now(), displayName "Guest", 10 coins, not premium. -/
def guestDefault (now : Nat) : UserProfile :=
  { uid := "guest-" ++ toString now, displayName := some "Guest", email := none,
    photoURL := none, coins := some 10, isGuest := true, isPremium := some false }

/-- The backfilling updateDoc of src/App.tsx lines 79-86: lastLogin is always
refreshed; coins is set to 100 only when absent; isPremium is set to false
only when absent. -/
def backfill (d : RemoteDoc) (now : Nat) : RemoteDoc :=
  { d with lastLogin := some now,
           coins := if d.coins = none then some 100 else d.coins,
           isPremium := if d.isPremium = none then some false else d.isPremium }

/-- The freshly created remote document of src/App.tsx lines 89-97:
identity fields from the provider, coins = 100, isPremium = false. -/
def freshDoc (cu : AuthUser) (now : Nat) : RemoteDoc :=
  { displayName := cu.displayName, email := cu.email, photoURL := cu.photoURL,
    lastLogin := some now, coins := some 100, isPremium := some false }

/-- The profile passed to setUser in src/App.tsx lines 100-108: identity
fields from the provider, coins and isPremium from the (re-read) document. -/
def profileFrom (cu : AuthUser) (d : RemoteDoc) : UserProfile :=
  { uid := cu.uid, displayName := cu.displayName, email := cu.email,
    photoURL := cu.photoURL, coins := d.coins, isGuest := false,
    isPremium := d.isPremium }

/-- Shallow embedding of the onAuthStateChanged callback in src/App.tsx lines
69-130 (the session resolution).  The callback has no try/catch: a failing
await rejects the async callback, so setUser is never invoked on a failure
path (modelled as `user := none`, `failed := true`).  Note that
`localStorage.removeItem('guestProfile')` (line 72) runs before the first
remote read, so the guest record is gone even when a later operation fails. -/
def resolveSession (ops : RemoteOps) (currentUser : Option AuthUser)
    (store : Option RemoteDoc) (guestLocal : Option UserProfile) (now : Nat) :
    SessionOutcome :=
  match currentUser with
  | some cu =>
      if ops.getFails then
        { user := none, store := store, guestLocal := none, failed := true }
      else
        match store with
        | some d =>
            if ops.updateFails then
              { user := none, store := store, guestLocal := none, failed := true }
            else if ops.regetFails then
              { user := none, store := some (backfill d now), guestLocal := none,
                failed := true }
            else
              { user := some (profileFrom cu (backfill d now)),
                store := some (backfill d now), guestLocal := none, failed := false }
        | none =>
            if ops.setFails then
              { user := none, store := none, guestLocal := none, failed := true }
            else
              { user := some (profileFrom cu (freshDoc cu now)),
                store := some (freshDoc cu now), guestLocal := none, failed := false }
  | none =>
      match guestLocal with
      | some g =>
          { user := some g, store := store, guestLocal := some g, failed := false }
      | none =>
          { user := some (guestDefault now), store := store,
            guestLocal := some (guestDefault now), failed := false }

/-- Whether, for a given document-store state, the injected failures make some
remote operation that the authenticated branch actually executes fail. -/
def remoteFailureOccurs (ops : RemoteOps) (store : Option RemoteDoc) : Bool :=
  ops.getFails ||
    (match store with
     | some _ => ops.updateFails || ops.regetFails
     | none => ops.setFails)

/-- Combined application state touched by the premium-unlock flow: the
in-memory current user, the localStorage guestProfile entry, and the user's
remote document. -/
structure AppState where
  user : Option UserProfile
  guestLocal : Option UserProfile
  remote : Option RemoteDoc
deriving Repr, DecidableEq

/-- Shallow embedding of App.handlePremiumUnlocked (src/App.tsx lines
158-174).  The updated in-memory profile sets isPremium = true and sets coins
to `user.isGuest ? user.coins : undefined` (so a non-guest's in-memory coins
field becomes undefined).  Guests are persisted to localStorage only; for
non-guests `updateDoc(userRef, { isPremium: true })` touches only the
isPremium field of the remote document. -/
def handlePremiumUnlocked (s : AppState) : AppState :=
  match s.user with
  | none => s
  | some u =>
      let u' : UserProfile :=
        { u with isPremium := some true,
                 coins := if u.isGuest then u.coins else none }
      { user := some u',
        guestLocal := if u.isGuest then some u' else s.guestLocal,
        remote := if u.isGuest then s.remote
                  else s.remote.map (fun d => { d with isPremium := some true }) }

/-- The unlock-premium entry point as exercised from the premium page:
PremiumPage.handleChoosePlan (src/components/TextToSpeech.tsx lines 232-235)
returns immediately when `user?.isPremium` is truthy, and otherwise the
payment flow ends in onPremiumUnlocked = App.handlePremiumUnlocked. -/
def unlockPremiumFlow (s : AppState) : AppState :=
  if (s.user.map premiumOf).getD false then s
  else handlePremiumUnlocked s

/-- A captured frame (base64-encoded JPEG data, abstracted as a string). -/
abbrev Frame := String

/-- The reported duration of the loaded video element: a finite rational
number of seconds, positive infinity, or NaN. -/
inductive VideoDuration where
  | fin (d : ℚ)
  | posInf
  | nan
deriving Repr, DecidableEq

/-- The guard `duration <= 0 || !isFinite(duration)` of
src/services/geminiService.ts line 194 (NaN compares false against 0 but is
not finite, so it is invalid too). -/
def invalidDuration : VideoDuration → Bool
  | .fin d => decide (d ≤ 0)
  | .posInf => true
  | .nan => true

/-- The capture timestamps of src/services/geminiService.ts lines 198-199:
`time = (duration / frameCount) * i` for i in [0, frameCount). -/
def frameTimes (d : ℚ) (frameCount : ℕ) : List ℚ :=
  (List.range frameCount).map (fun i : ℕ => d / (frameCount : ℚ) * (i : ℚ))

/-- The sequential seek-then-capture loop (src/services/geminiService.ts
lines 198-231): each seek must complete before the next is issued; a seek
error rejects the whole operation; a successful seek draws the current frame
and queues its JPEG encoding (`capture t`, where `none` models a null blob
from a CORS-blocked canvas, detected later at Promise.all). -/
def seekAll (seekOk : ℚ → Bool) (capture : ℚ → Option Frame) :
    List ℚ → Except String (List (Option Frame))
  | [] => .ok []
  | t :: ts =>
      if seekOk t then
        match seekAll seekOk capture ts with
        | .ok rest => .ok (capture t :: rest)
        | .error e => .error e
      else .error "Error seeking video to extract frame."

/-- Number of frames drawn to the canvas before a seek failure stops the
loop: the length of the prefix of timestamps whose seeks succeed. -/
def capturedCount (seekOk : ℚ → Bool) (ts : List ℚ) : Nat :=
  (ts.takeWhile seekOk).length

/-- The `await Promise.all(framePromises)` step: any queued encoding that
produced a null blob rejects the whole batch with the CORS error
(src/services/geminiService.ts lines 216-227, 233). -/
def collectFrames : List (Option Frame) → Except String (List Frame)
  | [] => .ok []
  | some f :: rest =>
      match collectFrames rest with
      | .ok fs => .ok (f :: fs)
      | .error e => .error e
  | none :: _ =>
      .error "Failed to extract video frame, possibly due to CORS policy."

/-- Result of one run of GeminiService._processVideoToFrames: the returned
frames or the thrown error, how many frames were drawn before the run ended,
and whether the temporary object URL was revoked (the finally block at
src/services/geminiService.ts lines 235-239 revokes it exactly when the
source was a local File). -/
structure ExtractResult where
  frames : Except String (List Frame)
  framesCaptured : Nat
  urlReleased : Bool
deriving Repr

/-- Shallow embedding of GeminiService._processVideoToFrames
(src/services/geminiService.ts lines 163-240).  `isFile` tells whether the
source is a local File (for which an object URL is allocated and must be
revoked); `loadOk` is the outcome of waiting for loadedmetadata; `dur` is
the reported duration; `seekOk` and `capture` inject seek and canvas/CORS
outcomes per timestamp. -/
def processVideoToFrames (isFile loadOk : Bool) (dur : VideoDuration)
    (seekOk : ℚ → Bool) (capture : ℚ → Option Frame) (frameCount : ℕ) :
    ExtractResult :=
  if loadOk = false then
    { frames := .error "Could not load video. This may be due to web security (CORS) restrictions. Try a different URL or upload the file directly.",
      framesCaptured := 0, urlReleased := isFile }
  else
    match dur with
    | .fin d =>
        if d ≤ 0 then
          { frames := .error "Video duration is invalid or could not be determined.",
            framesCaptured := 0, urlReleased := isFile }
        else
          match seekAll seekOk capture (frameTimes d frameCount) with
          | .error e =>
              { frames := .error e,
                framesCaptured := capturedCount seekOk (frameTimes d frameCount),
                urlReleased := isFile }
          | .ok opts =>
              { frames := collectFrames opts,
                framesCaptured := frameCount, urlReleased := isFile }
    | .posInf =>
        { frames := .error "Video duration is invalid or could not be determined.",
          framesCaptured := 0, urlReleased := isFile }
    | .nan =>
        { frames := .error "Video duration is invalid or could not be determined.",
          framesCaptured := 0, urlReleased := isFile }

/-- JavaScript number-to-integer truncation (toward zero), on rationals. -/
def jsTruncate (x : ℚ) : ℤ := if 0 ≤ x then ⌊x⌋ else ⌈x⌉

/-- JavaScript ToInt16: reduce an integer modulo 2^16 into the signed range
[-32768, 32768).  This is what an Int16Array element assignment applies. -/
def toInt16 (n : ℤ) : ℤ := (n + 32768) % 65536 - 32768

/-- The per-sample conversion of createBlob (src/components/Logo.tsx lines
54-64): `int16[i] = data[i] * 32768`, i.e. scale by 32768, truncate, and let
the Int16Array store wrap modulo 2^16 with no clamping. -/
def createBlobSample (s : ℚ) : ℤ := toInt16 (jsTruncate (s * 32768))

/-- A non-premium authenticated user with 50 coins, for concrete checks. -/
def sampleRichUser : UserProfile :=
  { uid := "rich", displayName := none, email := none, photoURL := none,
    coins := some 50, isGuest := false, isPremium := some false }

/-- A non-premium authenticated user with 3 coins, for concrete checks. -/
def samplePoorUser : UserProfile :=
  { uid := "poor", displayName := none, email := none, photoURL := none,
    coins := some 3, isGuest := false, isPremium := some false }

/-- A premium authenticated user (coins field absent), for concrete checks. -/
def samplePremiumUser : UserProfile :=
  { uid := "prem", displayName := none, email := none, photoURL := none,
    coins := none, isGuest := false, isPremium := some true }

/-- A concrete authenticated identity, for concrete checks. -/
def sampleAuth : AuthUser :=
  { uid := "u1", displayName := some "A", email := none, photoURL := none }

/-- A remote document missing both the coins and the isPremium fields. -/
def sampleBareDoc : RemoteDoc :=
  { displayName := some "A", email := none, photoURL := none,
    lastLogin := some 1, coins := none, isPremium := none }

/-- On the error path of a generator submit, the local and remote coin
balances are unchanged (the catch block performs no debit). -/
theorem handleSubmit_error_state (u : UserProfile) (cost r : Int) (e : String) :
    (handleSubmit (α := List String) u cost r (.error e)).localCoins = u.coins ∧
    (handleSubmit (α := List String) u cost r (.error e)).remoteCoins = r := by
  by_cases h : hasEnoughCoins u cost = false <;> simp [handleSubmit, h]

/-- C1: for a non-premium user with debit amount a = cost and balance
b = coins ?? 0, a successful paid operation debits the balance to b - a when
a ≤ b; when a > b the generation call is never issued and both balances are
unchanged; a premium user's operation is attempted regardless of balance and
leaves both balances untouched. -/
theorem generator_debit_gating (u : UserProfile) (cost r : Int)
    (gen : Except String (List String)) :
    (premiumOf u = false → cost ≤ coinsOf u → ∀ out, gen = .ok out →
        (handleSubmit u cost r gen).attempted = true ∧
        (handleSubmit u cost r gen).localCoins = some (coinsOf u - cost))
    ∧ (premiumOf u = false → coinsOf u < cost →
        (handleSubmit u cost r gen).attempted = false ∧
        (handleSubmit u cost r gen).localCoins = u.coins ∧
        (handleSubmit u cost r gen).remoteCoins = r)
    ∧ (premiumOf u = true →
        (handleSubmit u cost r gen).attempted = true ∧
        (handleSubmit u cost r gen).localCoins = u.coins ∧
        (handleSubmit u cost r gen).remoteCoins = r) := by
  refine ⟨?_, ?_, ?_⟩
  · intro hp hle out hgen
    subst hgen
    have henough : hasEnoughCoins u cost = true := by
      simp [hasEnoughCoins, hp, hle]
    simp [handleSubmit, henough, hp]
  · intro hp hlt
    have henough : hasEnoughCoins u cost = false := by
      simp [hasEnoughCoins, hp, not_le.mpr hlt]
    simp [handleSubmit, henough]
  · intro hp
    have henough : hasEnoughCoins u cost = true := by
      simp [hasEnoughCoins, hp]
    cases gen with
    | ok out => simp [handleSubmit, henough, hp]
    | error e => simp [handleSubmit, henough]

/-- Witness for C1 at concrete inputs: a rich non-premium user is debited
IMAGE_COST on success, a poor non-premium user's video request is not
attempted, and a premium user's balance is untouched. -/
theorem generator_debit_gating_witness :
    (handleSubmit sampleRichUser IMAGE_COST 50 (Except.ok ["img"])).localCoins = some 45
    ∧ (handleSubmit samplePoorUser VIDEO_COST 50 (Except.ok ["v"])).attempted = false
    ∧ (handleSubmit samplePremiumUser VIDEO_COST 50
        ((Except.error "boom" : Except String (List String)))).localCoins = samplePremiumUser.coins := by
  refine ⟨?_, ?_, ?_⟩
  · have h := (generator_debit_gating sampleRichUser IMAGE_COST 50
      (Except.ok ["img"])).1 (by decide) (by decide) ["img"] rfl
    exact h.2.trans (by decide)
  · exact ((generator_debit_gating samplePoorUser VIDEO_COST 50
      (Except.ok ["v"])).2.1 (by decide) (by decide)).1
  · exact ((generator_debit_gating samplePremiumUser VIDEO_COST 50
      (Except.error "boom")).2.2 (by decide)).2.1

/-- C2: the coin debit is applied only after the generation call has
completed successfully: on any generation failure both the local and the
remote balances are unchanged, any balance change implies the call
succeeded, and for a non-premium non-guest user with enough coins a
successful call is followed by the remote decrement and the local
decrement. -/
theorem debit_only_after_success (u : UserProfile) (cost r : Int)
    (gen : Except String (List String)) :
    (∀ e, gen = .error e →
        (handleSubmit u cost r gen).localCoins = u.coins ∧
        (handleSubmit u cost r gen).remoteCoins = r)
    ∧ ((handleSubmit u cost r gen).remoteCoins ≠ r → ∃ out, gen = .ok out)
    ∧ ((handleSubmit u cost r gen).localCoins ≠ u.coins → ∃ out, gen = .ok out)
    ∧ (premiumOf u = false → u.isGuest = false → hasEnoughCoins u cost = true →
        ∀ out, gen = .ok out →
        (handleSubmit u cost r gen).remoteCoins = r - cost ∧
        (handleSubmit u cost r gen).localCoins = some (coinsOf u - cost)) := by
  refine ⟨?_, ?_, ?_, ?_⟩
  · intro e he
    subst he
    exact handleSubmit_error_state u cost r e
  · intro hne
    cases gen with
    | ok out => exact ⟨out, rfl⟩
    | error e => exact absurd (handleSubmit_error_state u cost r e).2 hne
  · intro hne
    cases gen with
    | ok out => exact ⟨out, rfl⟩
    | error e => exact absurd (handleSubmit_error_state u cost r e).1 hne
  · intro hp hg he out hgen
    subst hgen
    simp [handleSubmit, he, hp, hg]

/-- Witness for C2 at concrete inputs: a failed image generation leaves a
rich user's local balance and the remote balance alone, and a successful
one debits the remote balance. -/
theorem debit_only_after_success_witness :
    ((handleSubmit sampleRichUser IMAGE_COST 50
        ((Except.error "boom" : Except String (List String)))).localCoins
          = sampleRichUser.coins
      ∧ (handleSubmit sampleRichUser IMAGE_COST 50
          ((Except.error "boom" : Except String (List String)))).remoteCoins = 50)
    ∧ (handleSubmit sampleRichUser IMAGE_COST 50
        (Except.ok ["img"])).remoteCoins = 45 := by
  refine ⟨?_, ?_⟩
  · exact (debit_only_after_success sampleRichUser IMAGE_COST 50
      (Except.error "boom")).1 "boom" rfl
  · have h := ((debit_only_after_success sampleRichUser IMAGE_COST 50
      (Except.ok ["img"])).2.2.2 (by decide) (by decide) (by decide) ["img"] rfl).1
    exact h.trans (by decide)

/-- C4: when the remote profile document exists but is missing the coins
field or the isPremium field, a failure-free session resolution backfills the
missing field to its default (coins = 100, isPremium = false), persists it in
the remote document, and the returned in-memory profile carries the
backfilled value. -/
theorem resolve_backfills_missing_fields (cu : AuthUser) (d : RemoteDoc)
    (g : Option UserProfile) (now : Nat) :
    (d.coins = none →
        (resolveSession RemoteOps.allOk (some cu) (some d) g now).store.bind
            RemoteDoc.coins = some 100
        ∧ (resolveSession RemoteOps.allOk (some cu) (some d) g now).user.bind
            UserProfile.coins = some 100)
    ∧ (d.isPremium = none →
        (resolveSession RemoteOps.allOk (some cu) (some d) g now).store.bind
            RemoteDoc.isPremium = some false
        ∧ (resolveSession RemoteOps.allOk (some cu) (some d) g now).user.bind
            UserProfile.isPremium = some false) := by
  constructor
  · intro hc
    simp [resolveSession, RemoteOps.allOk, backfill, profileFrom, hc]
  · intro hp
    simp [resolveSession, RemoteOps.allOk, backfill, profileFrom, hp]

/-- Witness for C4 at a concrete document missing both fields. -/
theorem resolve_backfills_missing_fields_witness :
    ((resolveSession RemoteOps.allOk (some sampleAuth) (some sampleBareDoc)
        (some (guestDefault 0)) 3).store.bind RemoteDoc.coins = some 100)
    ∧ ((resolveSession RemoteOps.allOk (some sampleAuth) (some sampleBareDoc)
        (some (guestDefault 0)) 3).user.bind UserProfile.isPremium = some false) := by
  exact ⟨((resolve_backfills_missing_fields sampleAuth sampleBareDoc
      (some (guestDefault 0)) 3).1 rfl).1,
    ((resolve_backfills_missing_fields sampleAuth sampleBareDoc
      (some (guestDefault 0)) 3).2 rfl).2⟩

/-- C5: a failure-free sign-in resolution discards the locally stored guest
profile (localStorage entry cleared, result independent of the guest record
and in particular of its balance), and the authenticated profile's balance is
the remote document's existing value, or 100 when the document is created or
its coins field is backfilled. -/
theorem signin_discards_guest_balance (cu : AuthUser) (store : Option RemoteDoc)
    (g g' : Option UserProfile) (now : Nat) :
    resolveSession RemoteOps.allOk (some cu) store g now =
      resolveSession RemoteOps.allOk (some cu) store g' now
    ∧ (resolveSession RemoteOps.allOk (some cu) store g now).guestLocal = none
    ∧ (store = none →
        (resolveSession RemoteOps.allOk (some cu) store g now).user.bind
          UserProfile.coins = some 100)
    ∧ (∀ d c, store = some d → d.coins = some c →
        (resolveSession RemoteOps.allOk (some cu) store g now).user.bind
          UserProfile.coins = some c)
    ∧ (∀ d, store = some d → d.coins = none →
        (resolveSession RemoteOps.allOk (some cu) store g now).user.bind
          UserProfile.coins = some 100) := by
  refine ⟨?_, ?_, ?_, ?_, ?_⟩
  · cases store <;> simp [resolveSession, RemoteOps.allOk]
  · cases store <;> simp [resolveSession, RemoteOps.allOk]
  · intro hs
    subst hs
    simp [resolveSession, RemoteOps.allOk, freshDoc, profileFrom]
  · intro d c hs hc
    subst hs
    simp [resolveSession, RemoteOps.allOk, backfill, profileFrom, hc]
  · intro d hs hc
    subst hs
    simp [resolveSession, RemoteOps.allOk, backfill, profileFrom, hc]

/-- Witness for C5 at concrete inputs: signing in over a guest holding 10
coins yields 100 coins for a fresh document and the stored value 42 for an
existing document. -/
theorem signin_discards_guest_balance_witness :
    ((resolveSession RemoteOps.allOk (some sampleAuth) none
        (some (guestDefault 0)) 3).user.bind UserProfile.coins = some 100)
    ∧ ((resolveSession RemoteOps.allOk (some sampleAuth)
        (some { sampleBareDoc with coins := some 42 })
        (some (guestDefault 0)) 3).user.bind UserProfile.coins = some 42) := by
  exact ⟨(signin_discards_guest_balance sampleAuth none (some (guestDefault 0))
      none 3).2.2.1 rfl,
    (signin_discards_guest_balance sampleAuth
      (some { sampleBareDoc with coins := some 42 }) (some (guestDefault 0))
      none 3).2.2.2.1 { sampleBareDoc with coins := some 42 } 42 rfl rfl⟩

/-- Failure configuration where only the first getDoc fails. -/
def opsGetFails : RemoteOps :=
  { getFails := true, updateFails := false, regetFails := false, setFails := false }

/-- Failure configuration where only the backfilling updateDoc fails. -/
def opsUpdateFails : RemoteOps :=
  { getFails := false, updateFails := true, regetFails := false, setFails := false }

/-- Counterexample to C3: with an authenticated identity present and the
first remote read failing, the session resolution does NOT degrade to a guest
session — the async callback rejects, setUser is never invoked (user = none),
and the app stays blocked on its spinner; the local guest record was already
discarded. -/
theorem resolve_failure_no_guest_fallback_cex :
    (resolveSession opsGetFails (some sampleAuth) none
        (some (guestDefault 0)) 7).user = none
    ∧ (resolveSession opsGetFails (some sampleAuth) none
        (some (guestDefault 0)) 7).failed = true := by
  exact ⟨rfl, rfl⟩

/-- C3 (amended): if a remote I/O operation that the authenticated branch
actually executes fails, session resolution sets no profile at all (the app
stays without a current user, with the local guest record already discarded)
rather than degrading to a guest session; a guest session — with the guest
defaults, which still enforce the coin checks — arises only on the
unauthenticated path. -/
theorem resolve_failure_blocks_app (ops : RemoteOps) (cu : AuthUser)
    (store : Option RemoteDoc) (g : Option UserProfile) (now : Nat)
    (h : remoteFailureOccurs ops store = true) :
    (resolveSession ops (some cu) store g now).user = none
    ∧ (resolveSession ops (some cu) store g now).failed = true
    ∧ (resolveSession ops (some cu) store g now).guestLocal = none
    ∧ (resolveSession ops none store none now).user = some (guestDefault now)
    ∧ hasEnoughCoins (guestDefault now) VIDEO_COST = false
    ∧ hasEnoughCoins (guestDefault now) IMAGE_COST = true := by
  have hguest : (resolveSession ops none store none now).user
      = some (guestDefault now) := by
    simp [resolveSession]
  have hv : hasEnoughCoins (guestDefault now) VIDEO_COST = false := by
    simp [hasEnoughCoins, premiumOf, coinsOf, guestDefault, VIDEO_COST]
  have hi : hasEnoughCoins (guestDefault now) IMAGE_COST = true := by
    simp [hasEnoughCoins, premiumOf, coinsOf, guestDefault, IMAGE_COST]
  have hmain : (resolveSession ops (some cu) store g now).user = none
      ∧ (resolveSession ops (some cu) store g now).failed = true
      ∧ (resolveSession ops (some cu) store g now).guestLocal = none := by
    by_cases hg : ops.getFails = true
    · cases store <;> simp [resolveSession, hg]
    · replace hg : ops.getFails = false := by
        simpa using hg
      cases store with
      | none =>
          have hs : ops.setFails = true := by
            simpa [remoteFailureOccurs, hg] using h
          simp [resolveSession, hg, hs]
      | some d =>
          have hs : ops.updateFails = true ∨ ops.regetFails = true := by
            simpa [remoteFailureOccurs, hg] using h
          by_cases hu : ops.updateFails = true
          · simp [resolveSession, hg, hu]
          · replace hu : ops.updateFails = false := by simpa using hu
            have hr : ops.regetFails = true := by
              rcases hs with hs | hs
              · exact absurd hs (by simp [hu])
              · exact hs
            simp [resolveSession, hg, hu, hr]
  exact ⟨hmain.1, hmain.2.1, hmain.2.2, hguest, hv, hi⟩

/-- Witness for C3 (amended) at a concrete failing updateDoc over an
existing document. -/
theorem resolve_failure_blocks_app_witness :
    remoteFailureOccurs opsUpdateFails (some sampleBareDoc) = true
    ∧ (resolveSession opsUpdateFails (some sampleAuth) (some sampleBareDoc)
        (some (guestDefault 0)) 7).user = none := by
  exact ⟨rfl, (resolve_failure_blocks_app opsUpdateFails sampleAuth
    (some sampleBareDoc) (some (guestDefault 0)) 7 rfl).1⟩

/-- An existing remote document holding 42 coins, for concrete checks. -/
def sampleDoc42 : RemoteDoc := { sampleBareDoc with coins := some 42 }

/-- Application state with a fresh guest as the current user. -/
def guestState : AppState :=
  { user := some (guestDefault 0), guestLocal := some (guestDefault 0), remote := none }

/-- Application state with an already-premium authenticated user. -/
def premiumState : AppState :=
  { user := some samplePremiumUser, guestLocal := none, remote := some sampleBareDoc }

/-- Application state with a non-premium authenticated user holding 50 coins
locally and 42 coins remotely. -/
def richState : AppState :=
  { user := some sampleRichUser, guestLocal := none, remote := some sampleDoc42 }

/-- With no current user, handlePremiumUnlocked changes nothing. -/
theorem handlePremiumUnlocked_user_none (s : AppState) (h : s.user = none) :
    handlePremiumUnlocked s = s := by
  simp [handlePremiumUnlocked, h]

/-- After handlePremiumUnlocked on a current user, the current user is
premium. -/
theorem handlePremiumUnlocked_user_some (s : AppState) (u : UserProfile)
    (h : s.user = some u) :
    (handlePremiumUnlocked s).user =
      some { u with isPremium := some true,
                    coins := if u.isGuest then u.coins else none } := by
  simp [handlePremiumUnlocked, h]

/-- C8: the unlock-premium flow (handleChoosePlan's already-premium guard
followed by handlePremiumUnlocked) is idempotent on the whole application
state; it leaves the current user premium; for a guest it keeps the coin
balance and never touches the remote document; and invoking it on an
already-premium user is a no-op. -/
theorem unlock_premium_idempotent (s : AppState) :
    unlockPremiumFlow (unlockPremiumFlow s) = unlockPremiumFlow s
    ∧ (∀ u, s.user = some u →
        ∃ u', (unlockPremiumFlow s).user = some u'
          ∧ u'.isPremium = some true
          ∧ (u.isGuest = true → u'.coins = u.coins
              ∧ (unlockPremiumFlow s).remote = s.remote))
    ∧ (∀ u, s.user = some u → premiumOf u = true → unlockPremiumFlow s = s) := by
  have flow_eq : ∀ t : AppState, unlockPremiumFlow t =
      if (t.user.map premiumOf).getD false then t else handlePremiumUnlocked t :=
    fun t => rfl
  refine ⟨?_, ?_, ?_⟩
  · cases hu : s.user with
    | none =>
        have h1 : unlockPremiumFlow s = s := by
          rw [flow_eq]
          simp [hu, handlePremiumUnlocked_user_none s hu]
        rw [h1, h1]
    | some u =>
        by_cases hp : premiumOf u = true
        · have h1 : unlockPremiumFlow s = s := by
            rw [flow_eq]
            simp [hu, hp]
          rw [h1, h1]
        · have h1 : unlockPremiumFlow s = handlePremiumUnlocked s := by
            rw [flow_eq]
            simp [hu, hp]
          have h2 := handlePremiumUnlocked_user_some s u hu
          have h3 : unlockPremiumFlow (handlePremiumUnlocked s)
              = handlePremiumUnlocked s := by
            rw [flow_eq]
            simp [h2, premiumOf]
          rw [h1, h3]
  · intro u hu
    by_cases hp : premiumOf u = true
    · refine ⟨u, ?_, ?_, ?_⟩
      · rw [flow_eq]
        simp [hu, hp]
      · have : u.isPremium.getD false = true := hp
        cases hip : u.isPremium with
        | none => rw [hip] at this; simp at this
        | some b =>
            rw [hip] at this
            simp at this
            rw [this]
      · intro _
        constructor
        · rfl
        · rw [flow_eq]
          simp [hu, hp]
    · refine ⟨{ u with isPremium := some true, coins := if u.isGuest then u.coins else none }, ?_, rfl, ?_⟩
      · have h1 : unlockPremiumFlow s = handlePremiumUnlocked s := by
          rw [flow_eq]
          simp [hu, hp]
        rw [h1]
        exact handlePremiumUnlocked_user_some s u hu
      · intro hguest
        constructor
        · simp [hguest]
        · have h1 : unlockPremiumFlow s = handlePremiumUnlocked s := by
            rw [flow_eq]
            simp [hu, hp]
          rw [h1]
          simp [handlePremiumUnlocked, hu, hguest]
  · intro u hu hp
    rw [flow_eq]
    simp [hu, hp]

/-- Witness for C8 at concrete states: unlocking on a guest keeps the 10
coins without touching the remote store, and unlocking an already-premium
state changes nothing. -/
theorem unlock_premium_idempotent_witness :
    (∃ u', (unlockPremiumFlow guestState).user = some u'
      ∧ u'.isPremium = some true
      ∧ (u'.coins = (guestDefault 0).coins
          ∧ (unlockPremiumFlow guestState).remote = guestState.remote))
    ∧ unlockPremiumFlow premiumState = premiumState := by
  constructor
  · obtain ⟨u', h1, h2, h3⟩ :=
      (unlock_premium_idempotent guestState).2.1 (guestDefault 0) rfl
    exact ⟨u', h1, h2, h3 rfl⟩
  · exact (unlock_premium_idempotent premiumState).2.2 samplePremiumUser rfl rfl

/-- C10: when premium is unlocked for an authenticated (non-guest) user, the
in-memory profile's coins field becomes undefined while the remote write
touches only the isPremium field (remote coins unchanged); for a guest the
coins field is kept and the remote document untouched. -/
theorem premium_unlock_frame_effect (s : AppState) (u : UserProfile)
    (hu : s.user = some u) :
    (u.isGuest = false →
        (handlePremiumUnlocked s).user =
          some { u with isPremium := some true, coins := none }
        ∧ (∀ d, s.remote = some d →
            (handlePremiumUnlocked s).remote = some { d with isPremium := some true })
        ∧ (handlePremiumUnlocked s).remote.bind RemoteDoc.coins
            = s.remote.bind RemoteDoc.coins)
    ∧ (u.isGuest = true →
        (handlePremiumUnlocked s).user = some { u with isPremium := some true }
        ∧ (handlePremiumUnlocked s).remote = s.remote) := by
  constructor
  · intro hg
    refine ⟨?_, ?_, ?_⟩
    · rw [handlePremiumUnlocked_user_some s u hu]
      simp [hg]
    · intro d hd
      simp [handlePremiumUnlocked, hu, hg, hd]
    · cases hd : s.remote with
      | none => simp [handlePremiumUnlocked, hu, hg, hd]
      | some d => simp [handlePremiumUnlocked, hu, hg, hd]
  · intro hg
    constructor
    · rw [handlePremiumUnlocked_user_some s u hu]
      simp [hg]
    · simp [handlePremiumUnlocked, hu, hg]

/-- Witness for C10 at concrete states: a non-guest's coins field is cleared
and the remote document keeps its coin value; a guest keeps the coins
field. -/
theorem premium_unlock_frame_effect_witness :
    ((handlePremiumUnlocked richState).user
        = some { sampleRichUser with isPremium := some true, coins := none }
      ∧ (handlePremiumUnlocked richState).remote.bind RemoteDoc.coins
        = richState.remote.bind RemoteDoc.coins)
    ∧ (handlePremiumUnlocked guestState).user
        = some { guestDefault 0 with isPremium := some true } := by
  constructor
  · exact ⟨((premium_unlock_frame_effect richState sampleRichUser rfl).1 rfl).1,
      ((premium_unlock_frame_effect richState sampleRichUser rfl).1 rfl).2.2⟩
  · exact ((premium_unlock_frame_effect guestState (guestDefault 0) rfl).2 rfl).1

/-- When every seek succeeds and every capture produces a frame, the
sequential loop returns the queued captures in timestamp order. -/
theorem seekAll_all_ok (cap : ℚ → Frame) (ts : List ℚ) :
    seekAll (fun _ => true) (fun t => some (cap t)) ts
      = .ok (ts.map (fun t => some (cap t))) := by
  induction ts with
  | nil => rfl
  | cons t ts ih => simp [seekAll, ih]

/-- Awaiting a batch of all-successful frame encodings yields the frames. -/
theorem collectFrames_map_some (cap : ℚ → Frame) (ts : List ℚ) :
    collectFrames (ts.map (fun t => some (cap t))) = .ok (ts.map cap) := by
  induction ts with
  | nil => rfl
  | cons t ts ih => simp [collectFrames, ih]

/-- C6: for a finite positive duration d and requested count n ≥ 1, with all
seeks and captures succeeding, frame extraction returns exactly n frames,
captured in order at the timestamps i * d / n for i in [0, n), which are
strictly increasing and all lie in [0, d). -/
theorem frame_extraction_exact (d : ℚ) (n : ℕ) (cap : ℚ → Frame)
    (isFile : Bool) (hd : 0 < d) (hn : 1 ≤ n) :
    (processVideoToFrames isFile true (.fin d) (fun _ => true)
        (fun t => some (cap t)) n).frames = .ok ((frameTimes d n).map cap)
    ∧ ((frameTimes d n).map cap).length = n
    ∧ frameTimes d n = (List.range n).map (fun i : ℕ => (i : ℚ) * d / (n : ℚ))
    ∧ List.Pairwise (· < ·) (frameTimes d n)
    ∧ (∀ t ∈ frameTimes d n, 0 ≤ t ∧ t < d) := by
  have hnq : (0 : ℚ) < (n : ℚ) := by
    exact_mod_cast Nat.lt_of_lt_of_le Nat.zero_lt_one hn
  have hstep : 0 < d / (n : ℚ) := div_pos hd hnq
  refine ⟨?_, ?_, ?_, ?_, ?_⟩
  · simp [processVideoToFrames, not_le.mpr hd, seekAll_all_ok, collectFrames_map_some]
  · rw [List.length_map]
    unfold frameTimes
    rw [List.length_map, List.length_range]
  · unfold frameTimes
    refine List.map_congr_left ?_
    intro i _
    ring
  · unfold frameTimes
    refine List.Pairwise.map (fun i : ℕ => d / (n : ℚ) * (i : ℚ)) ?_
      (List.pairwise_lt_range n)
    intro a b hab
    have hab' : (a : ℚ) < (b : ℚ) := by exact_mod_cast hab
    exact mul_lt_mul_of_pos_left hab' hstep
  · intro t ht
    unfold frameTimes at ht
    rw [List.mem_map] at ht
    obtain ⟨i, hi, rfl⟩ := ht
    rw [List.mem_range] at hi
    constructor
    · exact mul_nonneg (le_of_lt hstep) (by exact_mod_cast Nat.zero_le i)
    · have h1 : d / (n : ℚ) * (i : ℚ) < d / (n : ℚ) * (n : ℚ) :=
        mul_lt_mul_of_pos_left (by exact_mod_cast hi) hstep
      have h2 : d / (n : ℚ) * (n : ℚ) = d := div_mul_cancel₀ d (ne_of_gt hnq)
      rw [h2] at h1
      exact h1

/-- Witness for C6 on a 10-second video sampled at 4 frames. -/
theorem frame_extraction_exact_witness :
    (processVideoToFrames true true (.fin 10) (fun _ => true)
        (fun _ => some "jpeg") 4).frames = .ok ((frameTimes 10 4).map (fun _ => "jpeg"))
    ∧ ((frameTimes 10 4).map (fun _ => "jpeg")).length = 4
    ∧ (∀ t ∈ frameTimes 10 4, 0 ≤ t ∧ t < 10) := by
  have h := frame_extraction_exact 10 4 (fun _ => "jpeg") true
    (by norm_num) (by norm_num)
  exact ⟨h.1, h.2.1, h.2.2.2.2⟩

/-- C7: with a non-finite or non-positive reported duration, frame
extraction fails with the invalid-duration error with zero frames captured,
and the temporary object URL of a local-file source is released on every
path (the finally block), failure and success alike. -/
theorem invalid_duration_fails_cleanly (isFile : Bool) (dur : VideoDuration)
    (seekOk : ℚ → Bool) (capture : ℚ → Option Frame) (n : ℕ)
    (h : invalidDuration dur = true) :
    (processVideoToFrames isFile true dur seekOk capture n).frames
      = .error "Video duration is invalid or could not be determined."
    ∧ (processVideoToFrames isFile true dur seekOk capture n).framesCaptured = 0
    ∧ (∀ (loadOk : Bool) (dur' : VideoDuration) (sk : ℚ → Bool)
          (cp : ℚ → Option Frame) (m : ℕ),
        (processVideoToFrames isFile loadOk dur' sk cp m).urlReleased = isFile) := by
  have hrel : ∀ (loadOk : Bool) (dur' : VideoDuration) (sk : ℚ → Bool)
      (cp : ℚ → Option Frame) (m : ℕ),
      (processVideoToFrames isFile loadOk dur' sk cp m).urlReleased = isFile := by
    intro loadOk dur' sk cp m
    cases loadOk with
    | false => simp [processVideoToFrames]
    | true =>
        cases dur' with
        | fin d =>
            by_cases hd : d ≤ 0
            · simp [processVideoToFrames, hd]
            · cases hs : seekAll sk cp (frameTimes d m) with
              | ok opts => simp [processVideoToFrames, hd, hs]
              | error e => simp [processVideoToFrames, hd, hs]
        | posInf => simp [processVideoToFrames]
        | nan => simp [processVideoToFrames]
  cases dur with
  | fin d =>
      have hd : d ≤ 0 := by simpa [invalidDuration] using h
      exact ⟨by simp [processVideoToFrames, hd], by simp [processVideoToFrames, hd], hrel⟩
  | posInf =>
      exact ⟨by simp [processVideoToFrames], by simp [processVideoToFrames], hrel⟩
  | nan =>
      exact ⟨by simp [processVideoToFrames], by simp [processVideoToFrames], hrel⟩

/-- Witness for C7 on a zero-duration local file. -/
theorem invalid_duration_fails_cleanly_witness :
    (processVideoToFrames true true (.fin 0) (fun _ => true)
        (fun _ => some "jpeg") 10).frames
      = .error "Video duration is invalid or could not be determined."
    ∧ (processVideoToFrames true true (.fin 0) (fun _ => true)
        (fun _ => some "jpeg") 10).framesCaptured = 0
    ∧ (processVideoToFrames true true (.fin 0) (fun _ => true)
        (fun _ => some "jpeg") 10).urlReleased = true := by
  have h := invalid_duration_fails_cleanly true (.fin 0) (fun _ => true)
    (fun _ => some "jpeg") 10 (by norm_num [invalidDuration])
  exact ⟨h.1, h.2.1, h.2.2 true (.fin 0) (fun _ => true) (fun _ => some "jpeg") 10⟩

/-- Truncation of a scaled sample in [-32768, 32768) lands in the signed
16-bit range, so no wraparound occurs for it. -/
theorem jsTruncate_bounds (x : ℚ) (h1 : -32768 ≤ x) (h2 : x < 32768) :
    -32768 ≤ jsTruncate x ∧ jsTruncate x ≤ 32767 := by
  unfold jsTruncate
  by_cases h0 : 0 ≤ x
  · rw [if_pos h0]
    have hf0 : (0 : ℤ) ≤ ⌊x⌋ := Int.floor_nonneg.mpr h0
    have hfl : ⌊x⌋ < 32768 := by
      rw [Int.floor_lt]
      exact_mod_cast h2
    omega
  · rw [if_neg h0]
    push_neg at h0
    have hc0 : ⌈x⌉ ≤ 0 := by
      rw [Int.ceil_le]
      exact_mod_cast le_of_lt h0
    have hcl : (-32768 : ℤ) ≤ ⌈x⌉ := by
      have hx : (-32768 : ℚ) ≤ ((⌈x⌉ : ℤ) : ℚ) := le_trans h1 (Int.le_ceil x)
      exact_mod_cast hx
    omega

/-- C9: the float-to-PCM16 conversion scales by 32768 with no clamping: a
sample in [-1, 1) converts to the truncation of s * 32768 (within the signed
16-bit range, so unchanged by the 16-bit store), while the conversion is
always congruent to that truncation modulo 2^16, and the out-of-range sample
s = 1.0 wraps around to -32768 instead of saturating. -/
theorem pcm16_wraps_not_clamps (s : ℚ) :
    (-1 ≤ s → s < 1 →
        createBlobSample s = jsTruncate (s * 32768)
        ∧ -32768 ≤ createBlobSample s ∧ createBlobSample s ≤ 32767)
    ∧ createBlobSample 1 = -32768
    ∧ (createBlobSample s - jsTruncate (s * 32768)) % 65536 = 0 := by
  refine ⟨?_, ?_, ?_⟩
  · intro hls hlt
    have hb := jsTruncate_bounds (s * 32768) (by linarith) (by linarith)
    unfold createBlobSample toInt16
    obtain ⟨hb1, hb2⟩ := hb
    refine ⟨?_, ?_, ?_⟩ <;> omega
  · have h32 : jsTruncate ((1 : ℚ) * 32768) = 32768 := by
      unfold jsTruncate
      norm_num
    unfold createBlobSample toInt16
    rw [h32]
    decide
  · unfold createBlobSample toInt16
    generalize jsTruncate (s * 32768) = m
    omega

/-- Witness for C9 at the in-range sample 1/2. -/
theorem pcm16_wraps_not_clamps_witness :
    createBlobSample (1 / 2) = jsTruncate ((1 / 2 : ℚ) * 32768) := by
  exact ((pcm16_wraps_not_clamps (1 / 2)).1 (by norm_num) (by norm_num)).1

end NexaNeuron
